import Mathlib

/-
Shallow embedding of the QNTX webscraper harvest engine
(qntx_webscraper/scraper.py) and verification of its specification.

External collaborators (the HTTP client, DNS resolver, the ipaddress
classification library, lxml/BeautifulSoup parsing, and the robots.txt
parser) are modelled as oracle fields of an `Env` record: the engine's
own control flow — SSRF validation, robots gating, size-capped reads,
rate limiting, sitemap/feed record construction, attestation projection
and the BFS crawl — is translated statement by statement from the source.
-/

namespace QWS

/-- Classification of an address as reported by the platform ipaddress
library (`ipaddress.ip_address(...)` attribute reads in `_validate_url`). -/
structure IPInfo where
  is_private : Bool
  is_loopback : Bool
  is_link_local : Bool
  is_reserved : Bool
  deriving DecidableEq

/-- Result of `urllib.parse.urlparse` for the fields the engine reads. -/
structure ParsedUrl where
  scheme : String
  hostname : Option String
  netloc : String
  deriving DecidableEq

/-- A link extracted from a web page (dataclass ExtractedLink). -/
structure ExtractedLink where
  source_url : String
  target_url : String
  anchor_text : String
  rel : List String
  is_external : Bool
  deriving DecidableEq

/-- An image extracted from a web page (dataclass ExtractedImage). -/
structure ExtractedImage where
  src : String
  alt : String
  title : String
  width : Option Nat
  height : Option Nat
  deriving DecidableEq

/-- Metadata extracted from a web page (dataclass ExtractedMeta). -/
structure ExtractedMeta where
  description : String
  keywords : List String
  author : String
  published_date : String
  modified_date : String
  og_title : String
  og_description : String
  og_image : String
  og_type : String
  og_url : String
  twitter_card : String
  twitter_title : String
  twitter_description : String
  twitter_image : String
  canonical_url : String
  language : String
  deriving DecidableEq

/-- The all-empty ExtractedMeta (the dataclass field defaults). -/
def emptyMeta : ExtractedMeta :=
  ⟨"", [], "", "", "", "", "", "", "", "", "", "", "", "", "", ""⟩

/-- JSON-LD datum (dataclass StructuredData); the `data` dict is kept as
its JSON serialization since the engine only ever re-serializes it. -/
structure StructuredData where
  type : String
  dataJson : String
  deriving DecidableEq

/-- Result of scraping a web page (dataclass ScrapeResult). -/
structure ScrapeResult where
  url : String
  title : String
  links : List ExtractedLink
  status_code : Nat
  error : Option String
  meta : ExtractedMeta
  images : List ExtractedImage
  structured_data : List StructuredData
  headings : List (String × List String)
  deriving DecidableEq

/-- An item from an RSS/Atom feed (dataclass FeedItem). -/
structure FeedItem where
  title : String
  link : String
  description : String
  published : String
  author : String
  guid : String
  categories : List String
  deriving DecidableEq

/-- Result of parsing a feed (dataclass FeedResult). -/
structure FeedResult where
  url : String
  title : String
  description : String
  items : List FeedItem
  feed_type : String
  error : Option String
  deriving DecidableEq

/-- A URL from a sitemap (dataclass SitemapURL); priority is exact
rational arithmetic standing in for the Python float. -/
structure SitemapURL where
  loc : String
  lastmod : String
  changefreq : String
  priority : ℚ
  deriving DecidableEq

/-- Result of parsing a sitemap (dataclass SitemapResult). -/
structure SitemapResult where
  url : String
  urls : List SitemapURL
  sitemaps : List String
  error : Option String
  deriving DecidableEq

/-- The `findtext` results the sitemap parser reads off one `<url>`
element, for both the namespaced and the bare path (the code tries
`findtext("sm:...", "", ns) or findtext("...", "")`). -/
structure SitemapUrlEl where
  nsLoc : String
  bareLoc : String
  nsLastmod : String
  bareLastmod : String
  nsChangefreq : String
  bareChangefreq : String
  nsPriority : String
  barePriority : String
  deriving DecidableEq

/-- The `findtext` results for one `<sitemap>` element of a sitemap index. -/
structure SitemapEl where
  nsLoc : String
  bareLoc : String
  deriving DecidableEq

/-- A successfully parsed sitemap document: its index entries and its
`<url>` blocks, as handed over by the XML library. -/
structure SitemapXml where
  sitemapEls : List SitemapEl
  urlEls : List SitemapUrlEl
  deriving DecidableEq

/-- What `_fetch_with_size_limit` plus BeautifulSoup extraction deliver
for an HTML page: title and the extracted link/meta/image/JSON-LD data. -/
structure PageData where
  title : String
  links : List ExtractedLink
  meta : ExtractedMeta
  images : List ExtractedImage
  structured_data : List StructuredData
  headings : List (String × List String)

/-- What feed fetch + XML parse + RSS/Atom detection deliver on success. -/
structure FeedData where
  title : String
  description : String
  items : List FeedItem
  feed_type : String

/-- A network GET issued by the engine: either a robots.txt probe or a
fetch of the target URL itself. -/
inductive NetEvent where
  | getRobots (robots_url : String)
  | getUrl (url : String)
  deriving DecidableEq

/-- True exactly on robots.txt probes. -/
def isRobotsEvent : NetEvent → Bool
  | NetEvent.getRobots _ => true
  | NetEvent.getUrl _ => false

/-- The engine's external collaborators: URL parsing, the ipaddress
classifier for IP-literal hostnames, DNS resolution via
`socket.gethostbyname` (`none` models `socket.gaierror`; gethostbyname
is IPv4-only, so an IPv6 literal hostname yields `none`), the cached
robots.txt decision, and the combined
fetch-and-parse outcomes for the three resource shapes (an `error`
covers `requests.RequestException`, the size-cap `ValueError` and XML
syntax errors, exactly the exceptions each call site catches). -/
structure Env where
  parse : String → ParsedUrl
  hostIP : String → Option IPInfo
  resolveHost : String → Option IPInfo
  canFetch : String → Bool
  fetchHtml : String → Except String PageData
  fetchFeed : String → Except String FeedData
  fetchSitemap : String → Except String SitemapXml

/-- The scraper configuration fields the verified paths read. -/
structure Config where
  respect_robots : Bool
  allow_private_ips : Bool

/-- True exactly when a call raised (landed in the `Except.error` case). -/
def isError {α : Type} : Except String α → Bool
  | Except.error _ => true
  | Except.ok _ => false

/-- Python str.lower, modelled character-wise so that concrete instances
evaluate (the hostnames at issue are ASCII). -/
def strLower (s : String) : String := String.mk (s.data.map Char.toLower)

/-- WebScraper.BLOCKED_METADATA_HOSTS: cloud metadata endpoints that are
always blocked. -/
def BLOCKED_METADATA_HOSTS : List String :=
  ["169.254.169.254", "metadata.google.internal", "metadata.goog"]

/-- The localhost/loopback host literals blocked unless allow_private_ips. -/
def LOCALHOST_HOSTS : List String :=
  ["localhost", "127.0.0.1", "::1", "0.0.0.0"]

/-- The `except ValueError` handler of _validate_url: the DNS-resolve
re-check. It runs both when `ipaddress.ip_address(hostname)` raises
ValueError (hostname is not an IP literal) and when one of the four
IP-literal SSRFError raises fires, because SSRFError subclasses
ValueError (scraper.py line 22) and is caught by this very handler.
Inside it, `socket.gaierror` (resolveHost = none) admits the URL. -/
def resolveRecheck (env : Env) (allow_private_ips : Bool) (hostname : String) :
    Except String Unit :=
  if ¬ allow_private_ips then
    match env.resolveHost hostname with
    | some ip =>
      if ip.is_private || ip.is_loopback || ip.is_link_local then
        Except.error "Hostname resolves to blocked IP"
      else Except.ok ()
    | none => Except.ok ()
  else Except.ok ()

/-- WebScraper._validate_url: SSRF admission. `Except.error` is an
SSRFError raise that escapes the function. The four IP-literal checks
(`is_private`/`is_loopback`/`is_link_local`/`is_reserved`, any of which
raises) sit inside the `try` whose handler is `except ValueError`; since
SSRFError subclasses ValueError, those raises are swallowed there and
the decision is re-made by `resolveRecheck` — they are not final errors.
The four sequential `if ... raise` statements are collapsed into one
disjunction because the handler outcome does not depend on which of them
fired. A clean IP literal (no flag set) completes the `try` body, so the
handler does not run and the URL is admitted without a DNS re-check. -/
def validate_url (env : Env) (allow_private_ips : Bool) (parsed : ParsedUrl) :
    Except String Unit :=
  if ¬ (parsed.scheme = "http" ∨ parsed.scheme = "https") then
    Except.error "Unsupported scheme"
  else
    match parsed.hostname with
    | none => Except.error "URL has no hostname"
    | some hostname =>
      if hostname = "" then Except.error "URL has no hostname"
      else if ¬ allow_private_ips ∧ LOCALHOST_HOSTS.contains (strLower hostname) then
        Except.error "Cannot scrape localhost"
      else if BLOCKED_METADATA_HOSTS.contains (strLower hostname) then
        Except.error "Cannot scrape cloud metadata endpoint"
      else
        match env.hostIP hostname with
        | some ip =>
          if ¬ allow_private_ips then
            if ip.is_private || ip.is_loopback || ip.is_link_local || ip.is_reserved then
              resolveRecheck env allow_private_ips hostname
            else Except.ok ()
          else Except.ok ()
        | none => resolveRecheck env allow_private_ips hostname

/-- The robots.txt URL the RobotsChecker probes for a page's origin. -/
def robotsUrlOf (parsed : ParsedUrl) : String :=
  parsed.scheme ++ "://" ++ parsed.netloc ++ "/robots.txt"

/-- WebScraper.scrape, with the list of HTTP GETs it issues. The robots
probe precedes the page GET; a fresh (uncached) RobotsChecker is
modelled, which only adds robots probes relative to the cached case. -/
def scrape (env : Env) (cfg : Config) (url : String) (extractAll : Bool) :
    ScrapeResult × List NetEvent :=
  let parsed := env.parse url
  match validate_url env cfg.allow_private_ips parsed with
  | Except.error e =>
      (⟨url, "", [], 0, some e, emptyMeta, [], [], []⟩, [])
  | Except.ok _ =>
    if cfg.respect_robots ∧ env.canFetch url = false then
      (⟨url, "", [], 0, some "Blocked by robots.txt", emptyMeta, [], [], []⟩,
       [NetEvent.getRobots (robotsUrlOf parsed)])
    else
      let pre := if cfg.respect_robots then [NetEvent.getRobots (robotsUrlOf parsed)] else []
      match env.fetchHtml url with
      | Except.error e =>
          (⟨url, "", [], 0, some e, emptyMeta, [], [], []⟩, pre ++ [NetEvent.getUrl url])
      | Except.ok page =>
          (⟨url, page.title, page.links, 200, none,
            if extractAll then page.meta else emptyMeta,
            if extractAll then page.images else [],
            if extractAll then page.structured_data else [],
            if extractAll then page.headings else []⟩,
           pre ++ [NetEvent.getUrl url])

/-- WebScraper.scrape_feed, with the list of HTTP GETs it issues.
The source performs no robots check on this path. -/
def scrape_feed (env : Env) (cfg : Config) (url : String) :
    FeedResult × List NetEvent :=
  match validate_url env cfg.allow_private_ips (env.parse url) with
  | Except.error e => (⟨url, "", "", [], "unknown", some e⟩, [])
  | Except.ok _ =>
    match env.fetchFeed url with
    | Except.error e => (⟨url, "", "", [], "unknown", some e⟩, [NetEvent.getUrl url])
    | Except.ok fd =>
        (⟨url, fd.title, fd.description, fd.items, fd.feed_type, none⟩,
         [NetEvent.getUrl url])

/-- Python `or` on two strings (empty string is falsy). -/
def pyOr (a b : String) : String := if a = "" then b else a

/-- List of decimal digits to the natural number they denote. -/
def digitsToNat (cs : List Char) : Nat :=
  cs.foldl (fun n c => 10 * n + (c.toNat - '0'.toNat)) 0

/-- The whitespace characters Python float() strips. -/
def isPySpace (c : Char) : Bool :=
  c = ' ' ∨ c = '\t' ∨ c = '\n' ∨ c = '\r' ∨ c = '\x0b' ∨ c = '\x0c'

/-- Strip leading and trailing whitespace from a character list. -/
def trimPy (cs : List Char) : List Char :=
  ((cs.dropWhile isPySpace).reverse.dropWhile isPySpace).reverse

/-- The rational denoted by a parsed decimal literal: sign, integer part,
fraction digits value, and fraction length. -/
def ratOfParts (neg : Bool) (ip fp flen : Nat) : ℚ :=
  (if neg then -1 else 1) * ((ip : ℚ) + (fp : ℚ) / ((10 : ℚ) ^ flen))

/-- Model of Python `float()` on the decimal literals a sitemap priority
can carry: optional sign, then digits with at most one point (at least
one digit overall), surrounded by optional whitespace. Exponent forms
and inf/nan are not modelled; unparsable text yields `none`, matching
the `ValueError` branch. -/
def parseFloat (s : String) : Option ℚ :=
  let cs := trimPy s.data
  let signAndRest : Bool × List Char :=
    match cs with
    | '-' :: rest => (true, rest)
    | '+' :: rest => (false, rest)
    | _ => (false, cs)
  let neg := signAndRest.1
  let body := signAndRest.2
  let intPart := body.takeWhile Char.isDigit
  let afterInt := body.dropWhile Char.isDigit
  match afterInt with
  | [] =>
      if intPart = [] then none
      else some (ratOfParts neg (digitsToNat intPart) 0 0)
  | '.' :: fracTail =>
      let fracPart := fracTail.takeWhile Char.isDigit
      let afterFrac := fracTail.dropWhile Char.isDigit
      if afterFrac = [] ∧ ¬ (intPart = [] ∧ fracPart = []) then
        some (ratOfParts neg (digitsToNat intPart) (digitsToNat fracPart)
          fracPart.length)
      else none
  | _ => none

/-- The priority computation of scrape_sitemap:
`float(priority_str) if priority_str else 0.5`, with the `ValueError`
handler assigning 0.5. -/
def priorityOf (s : String) : ℚ :=
  if s = "" then 1/2
  else
    match parseFloat s with
    | some q => q
    | none => 1/2

/-- The SitemapURL record built from one `<url>` element's findtext
results (the append body of the scrape_sitemap loop). -/
def mkSitemapURL (el : SitemapUrlEl) : SitemapURL :=
  ⟨pyOr el.nsLoc el.bareLoc, pyOr el.nsLastmod el.bareLastmod,
   pyOr el.nsChangefreq el.bareChangefreq,
   priorityOf (pyOr el.nsPriority el.barePriority)⟩

/-- The `<url>` loop of scrape_sitemap: skip entries without a loc,
default the priority on parse failure or absence. -/
def parse_sitemap_urls (els : List SitemapUrlEl) : List SitemapURL :=
  els.foldl (fun acc el =>
    if pyOr el.nsLoc el.bareLoc = "" then acc
    else acc ++ [mkSitemapURL el]) []

/-- The `<sitemap>` loop of scrape_sitemap (sitemap index handling). -/
def parse_sitemap_index (els : List SitemapEl) : List String :=
  els.foldl (fun acc el =>
    if pyOr el.nsLoc el.bareLoc = "" then acc
    else acc ++ [pyOr el.nsLoc el.bareLoc]) []

/-- WebScraper.scrape_sitemap, with the list of HTTP GETs it issues.
The source performs no robots check on this path. -/
def scrape_sitemap (env : Env) (cfg : Config) (url : String) :
    SitemapResult × List NetEvent :=
  match validate_url env cfg.allow_private_ips (env.parse url) with
  | Except.error e => (⟨url, [], [], some e⟩, [])
  | Except.ok _ =>
    match env.fetchSitemap url with
    | Except.error e => (⟨url, [], [], some e⟩, [NetEvent.getUrl url])
    | Except.ok x =>
        (⟨url, parse_sitemap_urls x.urlEls, parse_sitemap_index x.sitemapEls, none⟩,
         [NetEvent.getUrl url])

/-- The HTTP response handed to `_fetch_with_size_limit`: the final
status code, the parsed Content-Length header (`none` when the header is
absent or empty, the falsy cases of `if content_length`), and the body
chunks as `iter_content(chunk_size=8192)` yields them, each a byte list. -/
structure HttpResponse where
  status : Nat
  contentLength : Option Nat
  chunks : List (List Nat)

/-- The streaming loop of `_fetch_with_size_limit`: append each chunk and
raise as soon as the accumulated length exceeds the cap. -/
def readChunks (maxSize : Nat) : List (List Nat) → List Nat → Except String (List Nat)
  | [], content => Except.ok content
  | c :: rest, content =>
      let content := content ++ c
      if maxSize < content.length then Except.error "Response exceeded max size"
      else readChunks maxSize rest content

/-- WebScraper._fetch_with_size_limit: raise_for_status, the
Content-Length pre-check, then the capped streaming read. The advisory
content-type check only logs and is omitted. -/
def fetch_with_size_limit (maxSize : Nat) (resp : HttpResponse) :
    Except String (List Nat) :=
  if 400 ≤ resp.status then Except.error "HTTP error status"
  else
    match resp.contentLength with
    | some n =>
        if maxSize < n then Except.error "Response too large"
        else readChunks maxSize resp.chunks []
    | none => readChunks maxSize resp.chunks []

/-- RateLimiter state: the configured minimum interval and the per-domain
timestamp of the last request. Time is exact rational arithmetic. -/
structure RateLimiter where
  min_interval : ℚ
  last_request : List (String × ℚ)

/-- RateLimiter.__init__: min_interval = 1.0 / requests_per_second. -/
def mkRateLimiter (requests_per_second : ℚ) : RateLimiter :=
  ⟨1 / requests_per_second, []⟩

/-- Update a domain's timestamp in the limiter table. -/
def setLast (table : List (String × ℚ)) (domain : String) (t : ℚ) :
    List (String × ℚ) :=
  (domain, t) :: table.filter (fun p => p.1 ≠ domain)

/-- RateLimiter.wait at wall-clock time `now`: returns the sleep duration
and the updated state, whose timestamp is the post-sleep time (the
second `time.time()` call), i.e. the moment the fetch starts. -/
def RateLimiter.wait (rl : RateLimiter) (domain : String) (now : ℚ) :
    ℚ × RateLimiter :=
  match rl.last_request.lookup domain with
  | some last =>
      let elapsed := now - last
      let sleep := if elapsed < rl.min_interval then rl.min_interval - elapsed else 0
      (sleep, ⟨rl.min_interval, setLast rl.last_request domain (now + sleep)⟩)
  | none => (0, ⟨rl.min_interval, setLast rl.last_request domain now⟩)

/-- RobotsChecker cache state: for each cached robots.txt URL, the
crawl-delay its parser reports for the configured user agent. -/
structure RobotsChecker where
  parsers : List (String × Option ℚ)

/-- RobotsChecker.get_crawl_delay: the cached parser's crawl_delay, or
None when the origin's robots.txt was never fetched. This method has no
caller anywhere in the engine. -/
def RobotsChecker.get_crawl_delay (rc : RobotsChecker) (robots_url : String) :
    Option ℚ :=
  match rc.parsers.lookup robots_url with
  | some d => d
  | none => none

/-- The queue-refill loop of WebScraper.crawl: for each extracted link,
skip targets already visited or queued, skip externals when
same_domain_only, else append to the frontier. -/
def enqueueLinks (sameDomainOnly : Bool) (visited : List String)
    (links : List ExtractedLink) (queue : List String) : List String :=
  links.foldl (fun q link =>
    if link.target_url ∈ visited ∨ link.target_url ∈ q then q
    else if sameDomainOnly ∧ link.is_external then q
    else q ++ [link.target_url]) queue

/-- The while loop of WebScraper.crawl. `prevCrawled` is the
`_was_previously_crawled` oracle (an ATSStore query). Each yielded
record corresponds to exactly one `self.scrape` call. -/
def crawl_go (env : Env) (cfg : Config) (maxPages : Nat)
    (sameDomainOnly skipPrev : Bool) (prevCrawled : String → Bool)
    (visited : List String) (toVisit : List String) : List ScrapeResult :=
  match toVisit with
  | [] => []
  | url :: rest =>
    if hfull : maxPages ≤ visited.length then []
    else if url ∈ visited then
      crawl_go env cfg maxPages sameDomainOnly skipPrev prevCrawled visited rest
    else if skipPrev ∧ prevCrawled url then
      crawl_go env cfg maxPages sameDomainOnly skipPrev prevCrawled (url :: visited) rest
    else
      let result := (scrape env cfg url false).1
      let queue := if result.error = none then
          enqueueLinks sameDomainOnly (url :: visited) result.links rest
        else rest
      result :: crawl_go env cfg maxPages sameDomainOnly skipPrev prevCrawled
        (url :: visited) queue
  termination_by (maxPages - visited.length, toVisit.length)
  decreasing_by
    · apply Prod.Lex.right
      simp
    · apply Prod.Lex.left
      have : visited.length < maxPages := Nat.lt_of_not_le hfull
      simp only [List.length_cons]
      omega
    · apply Prod.Lex.left
      have : visited.length < maxPages := Nat.lt_of_not_le hfull
      simp only [List.length_cons]
      omega

/-- WebScraper.crawl: the initial previously-crawled check on the start
URL, then the BFS loop from a singleton frontier. -/
def crawl (env : Env) (cfg : Config) (start_url : String) (maxPages : Nat)
    (sameDomainOnly skipPrev : Bool) (prevCrawled : String → Bool) :
    List ScrapeResult :=
  if skipPrev ∧ prevCrawled start_url then []
  else crawl_go env cfg maxPages sameDomainOnly skipPrev prevCrawled [] [start_url]

/-- Attestation command as built by the projector (atsstore
AttestationCommand); attributes keep dict insertion order. -/
structure AttestationCommand where
  subjects : List String
  predicates : List String
  contexts : List String
  actors : List String
  attributes : List (String × String)
  deriving DecidableEq

def PREDICATE_LINKS_TO : String := "links_to"
def PREDICATE_HAS_TITLE : String := "has_title"
def PREDICATE_EXTERNAL_LINK : String := "links_externally_to"
def PREDICATE_HAS_DESCRIPTION : String := "has_meta_description"
def PREDICATE_HAS_IMAGE : String := "has_image"
def PREDICATE_AUTHORED_BY : String := "authored_by"
def PREDICATE_PUBLISHED_AT : String := "published_at"
def PREDICATE_HAS_CANONICAL : String := "has_canonical_url"
def PREDICATE_HAS_STRUCTURED_DATA : String := "has_structured_data"
def PREDICATE_FEED_CONTAINS : String := "feed_contains"
def PREDICATE_SITEMAP_CONTAINS : String := "sitemap_contains"

/-- The `actors=[actor] if actor else []` idiom. -/
def actorList (actor : String) : List String :=
  if actor = "" then [] else [actor]

/-- The `source` sentinel attribute present on every command. -/
def sourceAttr : String × String := ("source", "qntx-webscraper")

/-- The has_image command built for one image in scrape_and_attest. -/
def mkImageCmd (url actor : String) (img : ExtractedImage) : AttestationCommand :=
  ⟨[url], [PREDICATE_HAS_IMAGE], [img.src], actorList actor,
   [sourceAttr, ("alt", img.alt), ("title", img.title)]⟩

/-- The has_structured_data command built for one JSON-LD datum. -/
def mkStructuredCmd (url actor : String) (sd : StructuredData) : AttestationCommand :=
  ⟨[url], [PREDICATE_HAS_STRUCTURED_DATA], [sd.type], actorList actor,
   [sourceAttr, ("data", sd.dataJson)]⟩

/-- The links_to / links_externally_to command built for one link. -/
def mkLinkCmd (url actor : String) (link : ExtractedLink) : AttestationCommand :=
  ⟨[url],
   [if link.is_external then PREDICATE_EXTERNAL_LINK else PREDICATE_LINKS_TO],
   [link.target_url], actorList actor,
   [sourceAttr] ++
     (if link.anchor_text = "" then [] else [("anchor_text", link.anchor_text)]) ++
     (if link.rel = [] then [] else [("rel", String.intercalate "," link.rel)])⟩

/-- The ordered sequence of AttestationCommands scrape_and_attest builds
from a ScrapeResult (the generate_and_create payloads, in call order). -/
def page_attest_cmds (actor : String) (includeExternal : Bool)
    (r : ScrapeResult) : List AttestationCommand :=
  (if r.title ≠ "" then
    [⟨[r.url], [PREDICATE_HAS_TITLE], [r.title], actorList actor, [sourceAttr]⟩]
   else []) ++
  (if r.meta.description ≠ "" then
    [⟨[r.url], [PREDICATE_HAS_DESCRIPTION], [r.meta.description], actorList actor,
      [sourceAttr]⟩]
   else []) ++
  (if r.meta.author ≠ "" then
    [⟨[r.url], [PREDICATE_AUTHORED_BY], [r.meta.author], actorList actor,
      [sourceAttr]⟩]
   else []) ++
  (if r.meta.published_date ≠ "" then
    [⟨[r.url], [PREDICATE_PUBLISHED_AT], [r.meta.published_date], actorList actor,
      [sourceAttr]⟩]
   else []) ++
  (if r.meta.canonical_url ≠ "" ∧ r.meta.canonical_url ≠ r.url then
    [⟨[r.url], [PREDICATE_HAS_CANONICAL], [r.meta.canonical_url], actorList actor,
      [sourceAttr]⟩]
   else []) ++
  ((r.images.take 10).foldl (fun acc img =>
      if img.alt ≠ "" then acc ++ [mkImageCmd r.url actor img] else acc) []) ++
  (r.structured_data.foldl (fun acc sd =>
      acc ++ [mkStructuredCmd r.url actor sd]) []) ++
  (r.links.foldl (fun acc link =>
      if ¬ includeExternal ∧ link.is_external then acc
      else acc ++ [mkLinkCmd r.url actor link]) [])

/-- The feed_contains command built for one feed item. -/
def mkFeedItemCmd (url actor : String) (item : FeedItem) : AttestationCommand :=
  ⟨[url], [PREDICATE_FEED_CONTAINS], [item.link], actorList actor,
   [sourceAttr] ++
     (if item.title = "" then [] else [("title", item.title)]) ++
     (if item.published = "" then [] else [("published", item.published)]) ++
     (if item.author = "" then [] else [("author", item.author)])⟩

/-- The ordered sequence of AttestationCommands scrape_feed_and_attest
builds from a FeedResult. -/
def feed_attest_cmds (actor : String) (r : FeedResult) : List AttestationCommand :=
  r.items.foldl (fun acc item =>
      if item.link = "" then acc
      else acc ++ [mkFeedItemCmd r.url actor item])
    (if r.title ≠ "" then
      [⟨[r.url], [PREDICATE_HAS_TITLE], [r.title], actorList actor,
        [sourceAttr, ("feed_type", r.feed_type)]⟩]
     else [])

/-! Helper lemmas: characterizations of the append-accumulator loops,
filter distribution facts, and invariants of the capped reader and the
crawl loop. -/

theorem images_fold_eq (url actor : String) (imgs : List ExtractedImage) :
    ∀ acc, imgs.foldl (fun acc img =>
        if img.alt ≠ "" then acc ++ [mkImageCmd url actor img] else acc) acc
      = acc ++ (imgs.filter (fun img => img.alt ≠ "")).map (mkImageCmd url actor) := by
  induction imgs with
  | nil => intro acc; simp
  | cons x xs ih =>
      intro acc
      rw [List.foldl_cons, List.filter_cons]
      by_cases h : x.alt = ""
      · rw [if_neg (by simp [h]), if_neg (by simp [h])]
        exact ih acc
      · rw [if_pos (by simp [h]), if_pos (by simp [h])]
        rw [ih (acc ++ [mkImageCmd url actor x])]
        simp

theorem structured_fold_eq (url actor : String) (sds : List StructuredData) :
    ∀ acc, sds.foldl (fun acc sd => acc ++ [mkStructuredCmd url actor sd]) acc
      = acc ++ sds.map (mkStructuredCmd url actor) := by
  induction sds with
  | nil => intro acc; simp
  | cons x xs ih =>
      intro acc
      rw [List.foldl_cons, ih (acc ++ [mkStructuredCmd url actor x])]
      simp

theorem links_fold_eq (url actor : String) (includeExternal : Bool)
    (links : List ExtractedLink) :
    ∀ acc, links.foldl (fun acc link =>
        if ¬ includeExternal ∧ link.is_external then acc
        else acc ++ [mkLinkCmd url actor link]) acc
      = acc ++ (links.filter
          (fun link => ¬ (¬ includeExternal ∧ link.is_external))).map
          (mkLinkCmd url actor) := by
  induction links with
  | nil => intro acc; simp
  | cons x xs ih =>
      intro acc
      rw [List.foldl_cons, List.filter_cons]
      by_cases h : ¬ includeExternal ∧ x.is_external
      · rw [if_pos h, if_neg (by simp_all)]
        exact ih acc
      · rw [if_neg h, if_pos (by simp_all)]
        rw [ih (acc ++ [mkLinkCmd url actor x])]
        simp

theorem feed_fold_eq (url actor : String) (items : List FeedItem) :
    ∀ acc, items.foldl (fun acc item =>
        if item.link = "" then acc
        else acc ++ [mkFeedItemCmd url actor item]) acc
      = acc ++ (items.filter (fun item => item.link ≠ "")).map
          (mkFeedItemCmd url actor) := by
  induction items with
  | nil => intro acc; simp
  | cons x xs ih =>
      intro acc
      rw [List.foldl_cons, List.filter_cons]
      by_cases h : x.link = ""
      · rw [if_pos h, if_neg (by simp [h])]
        exact ih acc
      · rw [if_neg h, if_pos (by simp [h])]
        rw [ih (acc ++ [mkFeedItemCmd url actor x])]
        simp

theorem sitemap_fold_eq (els : List SitemapUrlEl) :
    ∀ acc, els.foldl (fun acc el =>
        if pyOr el.nsLoc el.bareLoc = "" then acc
        else acc ++ [mkSitemapURL el]) acc
      = acc ++ (els.filter (fun el => pyOr el.nsLoc el.bareLoc ≠ "")).map
          mkSitemapURL := by
  induction els with
  | nil => intro acc; simp
  | cons x xs ih =>
      intro acc
      rw [List.foldl_cons, List.filter_cons]
      by_cases h : pyOr x.nsLoc x.bareLoc = ""
      · rw [if_pos h, if_neg (by simp [h])]
        exact ih acc
      · rw [if_neg h, if_pos (by simp [h])]
        rw [ih (acc ++ [mkSitemapURL x])]
        simp

theorem filter_map_of_neg {α β : Type} (g : α → β) (q : β → Bool)
    (h : ∀ x, q (g x) = false) (l : List α) : (l.map g).filter q = [] := by
  induction l with
  | nil => rfl
  | cons x xs ih => simp [List.filter_cons, h x, ih]

theorem filter_map_of_pos {α β : Type} (g : α → β) (q : β → Bool)
    (h : ∀ x, q (g x) = true) (l : List α) : (l.map g).filter q = l.map g := by
  induction l with
  | nil => rfl
  | cons x xs ih => simp [List.filter_cons, h x, ih]

theorem scrape_url_eq (env : Env) (cfg : Config) (url : String) (ea : Bool) :
    ((scrape env cfg url ea).1).url = url := by
  unfold scrape
  dsimp only
  repeat' split
  all_goals rfl

theorem readChunks_ok_length (maxSize : Nat) (chunks : List (List Nat)) :
    ∀ content bytes, content.length ≤ maxSize →
      readChunks maxSize chunks content = Except.ok bytes →
      bytes.length ≤ maxSize := by
  induction chunks with
  | nil =>
      intro content bytes hc h
      simp only [readChunks] at h
      cases h
      exact hc
  | cons c rest ih =>
      intro content bytes hc h
      simp only [readChunks] at h
      by_cases hlen : maxSize < (content ++ c).length
      · rw [if_pos hlen] at h
        cases h
      · rw [if_neg hlen] at h
        exact ih (content ++ c) bytes (Nat.le_of_not_lt hlen) h

theorem readChunks_exceed (maxSize : Nat) (chunks : List (List Nat)) :
    ∀ content, content.length ≤ maxSize →
      (∃ k, maxSize < (content ++ ((chunks.take k).flatten)).length) →
      isError (readChunks maxSize chunks content) = true := by
  induction chunks with
  | nil =>
      intro content hc ⟨k, hk⟩
      simp at hk
      omega
  | cons c rest ih =>
      intro content hc ⟨k, hk⟩
      simp only [readChunks]
      by_cases hlen : maxSize < (content ++ c).length
      · rw [if_pos hlen]
        rfl
      · rw [if_neg hlen]
        refine ih (content ++ c) (Nat.le_of_not_lt hlen) ?_
        match k with
        | 0 =>
            simp at hk
            omega
        | Nat.succ j =>
            refine ⟨j, ?_⟩
            simp only [List.take_succ_cons, List.flatten_cons, List.append_assoc] at hk
            simpa using hk

theorem crawl_go_spec (env : Env) (cfg : Config) (maxPages : Nat)
    (sdo skipPrev : Bool) (prev : String → Bool) :
    ∀ visited toVisit,
      (crawl_go env cfg maxPages sdo skipPrev prev visited toVisit).length
          ≤ maxPages - visited.length ∧
      (∀ r ∈ crawl_go env cfg maxPages sdo skipPrev prev visited toVisit,
          r.url ∉ visited) ∧
      ((crawl_go env cfg maxPages sdo skipPrev prev visited toVisit).map
          (fun r => r.url)).Nodup := by
  intro visited toVisit
  induction visited, toVisit using crawl_go.induct env cfg maxPages sdo skipPrev prev with
  | case1 visited =>
      rw [crawl_go]
      simp
  | case2 visited url rest h =>
      rw [crawl_go]
      simp [h]
  | case3 visited url rest h hmem ih =>
      rw [crawl_go]
      simp only [dif_neg h, if_pos hmem]
      exact ih
  | case4 visited url rest h hmem hskip ih =>
      rw [crawl_go]
      simp only [dif_neg h, if_neg hmem, if_pos hskip]
      obtain ⟨ih1, ih2, ih3⟩ := ih
      refine ⟨?_, ?_, ih3⟩
      · simp only [List.length_cons] at ih1
        omega
      · intro r hr hv
        exact ih2 r hr (List.mem_cons_of_mem _ hv)
  | case5 visited url rest h hmem hskip result queue ih =>
      rw [crawl_go]
      simp only [dif_neg h, if_neg hmem, if_neg hskip]
      have ih1 := ih.1
      have ih2 := ih.2.1
      have ih3 := ih.2.2
      unfold_let queue result at ih1 ih2 ih3
      simp only [dite_eq_ite] at ih1 ih2 ih3
      refine ⟨?_, ?_, ?_⟩
      · simp only [List.length_cons] at ih1
        simp only [List.length_cons]
        omega
      · intro r hr
        rcases List.mem_cons.mp hr with h1 | h1
        · subst h1
          rw [scrape_url_eq]
          exact hmem
        · intro hv
          exact ih2 r h1 (List.mem_cons_of_mem _ hv)
      · simp only [List.map_cons]
        refine List.nodup_cons.mpr ⟨?_, ih3⟩
        intro hu
        rcases List.mem_map.mp hu with ⟨r, hr, hru⟩
        apply ih2 r hr
        rw [hru, scrape_url_eq]
        exact List.mem_cons_self _ _

theorem validate_metadata_blocked (env : Env) (allow : Bool) (u : ParsedUrl)
    (h : String) (hh : u.hostname = some h)
    (hmem : BLOCKED_METADATA_HOSTS.contains (strLower h) = true) :
    isError (validate_url env allow u) = true := by
  unfold validate_url
  rw [hh]
  repeat' split
  all_goals simp_all [isError]

theorem filter_ite_singleton {α : Type} (q : α → Bool) (P : Prop) [Decidable P]
    (c : α) (h : q c = false) : (if P then [c] else []).filter q = [] := by
  split
  · simp [List.filter_cons, h]
  · rfl

/-! Claim theorems. -/

/-- C1: for every URL whose lowercased hostname is in the cloud-metadata
blocklist, `_validate_url` raises SSRFError for either value of
allow_private_ips, so scrape returns a record with status_code 0 and
error set, scrape_feed and scrape_sitemap return records with error
set, and none of the three issues any network GET for that URL. -/
theorem metadata_hosts_always_refused (env : Env) (cfg : Config) (url : String)
    (h : String) (ea : Bool) (hh : (env.parse url).hostname = some h)
    (hmem : BLOCKED_METADATA_HOSTS.contains (strLower h) = true) :
    isError (validate_url env cfg.allow_private_ips (env.parse url)) = true ∧
    (scrape env cfg url ea).1.status_code = 0 ∧
    ((scrape env cfg url ea).1.error).isSome = true ∧
    (scrape env cfg url ea).2 = [] ∧
    ((scrape_feed env cfg url).1.error).isSome = true ∧
    (scrape_feed env cfg url).2 = [] ∧
    ((scrape_sitemap env cfg url).1.error).isSome = true ∧
    (scrape_sitemap env cfg url).2 = [] := by
  have hv := validate_metadata_blocked env cfg.allow_private_ips (env.parse url) h hh hmem
  rcases he : validate_url env cfg.allow_private_ips (env.parse url) with e | u
  · simp [scrape, scrape_feed, scrape_sitemap, he, isError]
  · rw [he] at hv
    simp [isError] at hv

def envC1 : Env :=
  ⟨fun _ => ⟨"http", some "metadata.goog", "metadata.goog"⟩,
   fun _ => none, fun _ => none, fun _ => true,
   fun _ => Except.error "net", fun _ => Except.error "net",
   fun _ => Except.error "net"⟩

/-- Witness for C1 at the concrete URL http://metadata.goog/x with
allow_private_ips = true. -/
theorem metadata_hosts_always_refused_witness :
    isError (validate_url envC1 true (envC1.parse "http://metadata.goog/x")) = true ∧
    (scrape envC1 ⟨true, true⟩ "http://metadata.goog/x" false).1.status_code = 0 ∧
    ((scrape envC1 ⟨true, true⟩ "http://metadata.goog/x" false).1.error).isSome = true ∧
    (scrape envC1 ⟨true, true⟩ "http://metadata.goog/x" false).2 = [] ∧
    ((scrape_feed envC1 ⟨true, true⟩ "http://metadata.goog/x").1.error).isSome = true ∧
    (scrape_feed envC1 ⟨true, true⟩ "http://metadata.goog/x").2 = [] ∧
    ((scrape_sitemap envC1 ⟨true, true⟩ "http://metadata.goog/x").1.error).isSome = true ∧
    (scrape_sitemap envC1 ⟨true, true⟩ "http://metadata.goog/x").2 = [] :=
  metadata_hosts_always_refused envC1 ⟨true, true⟩ "http://metadata.goog/x"
    "metadata.goog" false rfl (by decide)

/-- Oracle environment for C2 reflecting the real platform behavior:
the ipaddress library classifies fd00::1 (IPv6 unique-local) and
10.0.0.1 as private; socket.gethostbyname is IPv4-only, so it echoes the
dotted quad 10.0.0.1 back (classified private again) but raises gaierror
on the IPv6 literal fd00::1. -/
def envC2 : Env :=
  ⟨fun _ => ⟨"http", some "fd00::1", "[fd00::1]"⟩,
   fun h => if h = "fd00::1" then some ⟨true, false, false, false⟩
            else if h = "10.0.0.1" then some ⟨true, false, false, false⟩
            else none,
   fun h => if h = "10.0.0.1" then some ⟨true, false, false, false⟩ else none,
   fun _ => true,
   fun _ => Except.error "net", fun _ => Except.error "net",
   fun _ => Except.error "net"⟩

/-- C2 (code bug, evaluated at the failing input): with
allow_private_ips = false, the private IPv6 literal URL http://[fd00::1]/
is ADMITTED, not refused: the "Cannot scrape private IP" SSRFError is
caught by the surrounding `except ValueError` (SSRFError subclasses
ValueError), and the handler's gethostbyname raises gaierror on an IPv6
literal, which passes. An IPv4 private literal such as 10.0.0.1 is still
refused, but only via the handler's DNS re-check, not via the IP-literal
raise the claim describes. -/
theorem private_ipv6_literal_admitted :
    envC2.hostIP "fd00::1" = some ⟨true, false, false, false⟩ ∧
    envC2.resolveHost "fd00::1" = none ∧
    validate_url envC2 false ⟨"http", some "fd00::1", "[fd00::1]"⟩ =
      Except.ok () ∧
    validate_url envC2 false ⟨"http", some "10.0.0.1", "10.0.0.1"⟩ =
      Except.error "Hostname resolves to blocked IP" := by
  refine ⟨rfl, rfl, ?_, ?_⟩
  · rfl
  · rfl

def envC3 : Env :=
  ⟨fun _ => ⟨"http", some "h", "h"⟩, fun _ => none, fun _ => none,
   fun _ => false,
   fun _ => Except.error "net", fun _ => Except.ok ⟨"F", "", [], "rss"⟩,
   fun _ => Except.error "net"⟩

/-- C3 counterexample: with robots denying every URL of the origin
(Disallow: /) and respect_robots = true, scrape_feed and scrape_sitemap
still issue a GET to the target URL itself, which is not a robots.txt
fetch: the feed and sitemap paths never consult robots. -/
theorem feed_fetch_ignores_robots :
    envC3.canFetch "http://h/feed" = false ∧
    envC3.canFetch "http://h/sitemap.xml" = false ∧
    (scrape_feed envC3 ⟨true, false⟩ "http://h/feed").2 =
      [NetEvent.getUrl "http://h/feed"] ∧
    (scrape_sitemap envC3 ⟨true, false⟩ "http://h/sitemap.xml").2 =
      [NetEvent.getUrl "http://h/sitemap.xml"] ∧
    isRobotsEvent (NetEvent.getUrl "http://h/feed") = false ∧
    isRobotsEvent (NetEvent.getUrl "http://h/sitemap.xml") = false := by
  refine ⟨rfl, rfl, ?_, ?_, rfl, rfl⟩
  · rfl
  · rfl

/-- C3 amended: on the HTML scrape path, when robots-respect is enabled
and robots does not authorize the URL, every GET in the trace is a
robots.txt probe — no other fetch occurs. (The feed and sitemap paths do
not consult robots at all; see the counterexample.) -/
theorem scrape_robots_gate (env : Env) (cfg : Config) (url : String) (ea : Bool)
    (hr : cfg.respect_robots = true) (hb : env.canFetch url = false) :
    ((scrape env cfg url ea).2.all isRobotsEvent) = true := by
  unfold scrape
  dsimp only
  split
  · rfl
  · rw [if_pos ⟨hr, hb⟩]
    rfl

/-- Witness for the amended C3 at a concrete blocked URL. -/
theorem scrape_robots_gate_witness :
    ((scrape envC3 ⟨true, false⟩ "http://h/page" false).2.all isRobotsEvent) = true :=
  scrape_robots_gate envC3 ⟨true, false⟩ "http://h/page" false rfl rfl

/-- C4: the bytes `_fetch_with_size_limit` delivers never exceed
max_response_size; an over-cap Content-Length header is refused with the
same error for every possible body (so before reading any body); and
whenever some prefix of the streamed chunks exceeds the cap the call
raises instead of returning bytes. -/
theorem fetch_size_bound (maxSize : Nat) (resp : HttpResponse) :
    (∀ bytes, fetch_with_size_limit maxSize resp = Except.ok bytes →
        bytes.length ≤ maxSize) ∧
    (∀ n chunks, resp.contentLength = some n → maxSize < n → resp.status < 400 →
        fetch_with_size_limit maxSize ⟨resp.status, some n, chunks⟩ =
          Except.error "Response too large") ∧
    (∀ k, maxSize < ((resp.chunks.take k).flatten).length →
        isError (fetch_with_size_limit maxSize resp) = true) := by
  refine ⟨?_, ?_, ?_⟩
  · intro bytes hok
    unfold fetch_with_size_limit at hok
    split at hok
    · cases hok
    · split at hok
      · split at hok
        · cases hok
        · exact readChunks_ok_length maxSize resp.chunks [] bytes (by simp) hok
      · exact readChunks_ok_length maxSize resp.chunks [] bytes (by simp) hok
  · intro n chunks hcl hlt hst
    unfold fetch_with_size_limit
    rw [if_neg (Nat.not_le.mpr hst)]
    dsimp only
    rw [if_pos hlt]
  · intro k hk
    unfold fetch_with_size_limit
    split
    · rfl
    · split
      · split
        · rfl
        · exact readChunks_exceed maxSize resp.chunks [] (by simp) ⟨k, by simpa using hk⟩
      · exact readChunks_exceed maxSize resp.chunks [] (by simp) ⟨k, by simpa using hk⟩

/-- Witness for C4: a delivered body below the cap, a Content-Length
refusal, and a streaming abort, at concrete responses. -/
theorem fetch_size_bound_witness :
    ([4, 5, 6] : List Nat).length ≤ 5 ∧
    fetch_with_size_limit 5 ⟨200, some 9, [[1]]⟩ = Except.error "Response too large" ∧
    isError (fetch_with_size_limit 2 ⟨200, none, [[7, 7, 7]]⟩) = true :=
  ⟨(fetch_size_bound 5 ⟨200, none, [[4, 5], [6]]⟩).1 [4, 5, 6] rfl,
   (fetch_size_bound 5 ⟨200, some 9, [[1]]⟩).2.1 9 [[1]] rfl (by decide) (by decide),
   (fetch_size_bound 2 ⟨200, none, [[7, 7, 7]]⟩).2.2 1 (by decide)⟩

def rcC5 : RobotsChecker := ⟨[("http://h/robots.txt", some 10)]⟩

/-- The limiter state after a first fetch to host h released at time 0,
for a configured rate of 1 request per second. -/
def rlC5x : RateLimiter := ⟨1, [("h", 0)]⟩

/-- C5 counterexample: the limiter spaces fetches by 1/rps only. With
rps = 1 (min_interval 1) and a cached robots crawl-delay of 10 for the
host, a second wait entered one second after the first fetch sleeps 0,
so the second fetch starts at time 1 — spacing 1, strictly less than
max(1/rps, crawl_delay) = 10 (get_crawl_delay has no caller on any
fetch path). -/
theorem rate_limit_ignores_crawl_delay :
    (mkRateLimiter 1).min_interval = 1 ∧
    rcC5.get_crawl_delay "http://h/robots.txt" = some 10 ∧
    (RateLimiter.wait rlC5x "h" 1).1 = 0 ∧
    ((1 : ℚ) + (RateLimiter.wait rlC5x "h" 1).1) - 0 <
      max (mkRateLimiter 1).min_interval 10 := by
  have hl : rlC5x.last_request.lookup "h" = some 0 := rfl
  have hw : (RateLimiter.wait rlC5x "h" 1).1 = 0 := by
    unfold RateLimiter.wait
    rw [hl]
    dsimp only
    rw [if_neg (show ¬ ((1 : ℚ) - 0 < rlC5x.min_interval) by norm_num [rlC5x])]
  refine ⟨by norm_num [mkRateLimiter], rfl, hw, ?_⟩
  rw [hw]
  have h1 : ((1 : ℚ) + 0) - 0 = 1 := by norm_num
  rw [h1]
  exact lt_of_lt_of_le (by norm_num [mkRateLimiter]) (le_max_right _ _)

/-- C5 amended: between two successive fetches to the same host at least
min_interval = 1/rps elapses (the robots crawl-delay plays no part): if
the limiter last released a fetch for `domain` at time `last`, a wait
entered at time `now` releases the next fetch at `now + sleep` with
`now + sleep - last ≥ min_interval`. -/
theorem rate_limiter_min_spacing (rl : RateLimiter) (domain : String)
    (last now : ℚ) (hl : rl.last_request.lookup domain = some last) :
    rl.min_interval ≤ (now + (RateLimiter.wait rl domain now).1) - last := by
  unfold RateLimiter.wait
  rw [hl]
  dsimp only
  split
  · linarith
  · next hge => linarith [not_lt.mp hge]

def rlC5 : RateLimiter := ⟨2, [("h", 3)]⟩

/-- Witness for the amended C5 at a concrete limiter state. -/
theorem rate_limiter_min_spacing_witness :
    rlC5.min_interval ≤ ((10 : ℚ) + (RateLimiter.wait rlC5 "h" 10).1) - 3 :=
  rate_limiter_min_spacing rlC5 "h" 3 10 rfl

/-- C6: a crawl yields at most max_pages results and no URL appears twice
in the yielded stream; since the loop performs exactly one scrape call
per yielded record, each URL is fetched at most once in the run. -/
theorem crawl_budget_and_dedup (env : Env) (cfg : Config) (start_url : String)
    (maxPages : Nat) (sdo skipPrev : Bool) (prev : String → Bool) :
    (crawl env cfg start_url maxPages sdo skipPrev prev).length ≤ maxPages ∧
    ((crawl env cfg start_url maxPages sdo skipPrev prev).map
        (fun r => r.url)).Nodup := by
  unfold crawl
  split
  · simp
  · have h := crawl_go_spec env cfg maxPages sdo skipPrev prev [] [start_url]
    exact ⟨by simpa using h.1, h.2.2⟩

def elC7 : SitemapUrlEl := ⟨"http://h/p2", "", "", "", "", "", "2.5", ""⟩

/-- C7 counterexample: a `<url>` entry with priority text "2.5" parses
to the entry priority 5/2, which lies outside [0,1]; the parser does not
clamp priorities. -/
theorem sitemap_priority_exceeds_one :
    parse_sitemap_urls [elC7] = [⟨"http://h/p2", "", "", ratOfParts false 2 5 1⟩] ∧
    ¬ (ratOfParts false 2 5 1 ≤ 1) ∧ ratOfParts false 2 5 1 = 5/2 := by
  refine ⟨rfl, ?_, ?_⟩
  · norm_num [ratOfParts]
  · norm_num [ratOfParts]

/-- C7 amended: entries without a loc are skipped and the rest map over
in document order; a priority text that parses as a float round-trips
exactly (with no clamping into [0,1]); parse failure or absence yields
the default 1/2. -/
theorem sitemap_priority_amended :
    (∀ els, parse_sitemap_urls els =
        (els.filter (fun el => pyOr el.nsLoc el.bareLoc ≠ "")).map mkSitemapURL) ∧
    (∀ s q, parseFloat s = some q → priorityOf s = q) ∧
    (∀ s, parseFloat s = none → priorityOf s = 1/2) := by
  refine ⟨?_, ?_, ?_⟩
  · intro els
    have h := sitemap_fold_eq els []
    simpa [parse_sitemap_urls] using h
  · intro s q h
    unfold priorityOf
    have hs : ¬ s = "" := by
      intro he
      rw [he] at h
      have hnone : parseFloat "" = none := rfl
      rw [hnone] at h
      cases h
    rw [if_neg hs, h]
  · intro s h
    unfold priorityOf
    by_cases hs : s = ""
    · rw [if_pos hs]
    · rw [if_neg hs, h]

/-- Witness for the amended C7: an exact round-trip and a defaulted
failure at concrete priority texts. -/
theorem sitemap_priority_amended_witness :
    priorityOf "0.9" = 9/10 ∧ priorityOf "bogus" = 1/2 := by
  constructor
  · have h := sitemap_priority_amended.2.1 "0.9" (ratOfParts false 0 9 1) rfl
    rw [h]
    norm_num [ratOfParts]
  · exact sitemap_priority_amended.2.2 "bogus" rfl

def imgNoAlt : ExtractedImage := ⟨"http://h/i0", "", "", none, none⟩

def imgAlt : ExtractedImage := ⟨"http://h/i", "pic", "", none, none⟩

def pageC8 : ScrapeResult :=
  ⟨"http://h/p", "", [], 200, none, emptyMeta,
   imgNoAlt :: List.replicate 10 imgAlt, [], []⟩

/-- C8 counterexample: a page whose image list is one alt-less image
followed by ten images with alt text has at least ten images with
non-empty alt, yet only nine has_image commands are emitted, because the
code slices the first ten images before filtering on alt. -/
theorem image_attest_take_then_filter :
    10 ≤ (pageC8.images.filter (fun img => img.alt ≠ "")).length ∧
    ((page_attest_cmds "" true pageC8).filter
        (fun c => c.predicates = [PREDICATE_HAS_IMAGE])).length = 9 := by
  constructor
  · decide
  · decide

/-- C8 amended: the has_image commands of a page projection are exactly
one command per image with non-empty alt among the first ten images in
document order (subject url, context src, attributes alt and title). -/
theorem image_attest_amended (actor : String) (includeExternal : Bool)
    (r : ScrapeResult) :
    (page_attest_cmds actor includeExternal r).filter
        (fun c => c.predicates = [PREDICATE_HAS_IMAGE]) =
      ((r.images.take 10).filter (fun img => img.alt ≠ "")).map
        (mkImageCmd r.url actor) := by
  unfold page_attest_cmds
  rw [images_fold_eq, structured_fold_eq, links_fold_eq]
  simp only [List.nil_append]
  rw [List.filter_append, List.filter_append, List.filter_append,
      List.filter_append, List.filter_append, List.filter_append,
      List.filter_append]
  rw [filter_ite_singleton _ _ _ (by simp [PREDICATE_HAS_TITLE, PREDICATE_HAS_IMAGE]),
      filter_ite_singleton _ _ _ (by simp [PREDICATE_HAS_DESCRIPTION, PREDICATE_HAS_IMAGE]),
      filter_ite_singleton _ _ _ (by simp [PREDICATE_AUTHORED_BY, PREDICATE_HAS_IMAGE]),
      filter_ite_singleton _ _ _ (by simp [PREDICATE_PUBLISHED_AT, PREDICATE_HAS_IMAGE]),
      filter_ite_singleton _ _ _ (by simp [PREDICATE_HAS_CANONICAL, PREDICATE_HAS_IMAGE])]
  rw [filter_map_of_pos (mkImageCmd r.url actor) _
      (fun img => by simp [mkImageCmd])]
  rw [filter_map_of_neg (mkStructuredCmd r.url actor) _
      (fun sd => by simp [mkStructuredCmd, PREDICATE_HAS_STRUCTURED_DATA, PREDICATE_HAS_IMAGE])]
  rw [filter_map_of_neg (mkLinkCmd r.url actor) _
      (fun l => by
        cases hl : l.is_external <;>
          simp [mkLinkCmd, hl, PREDICATE_EXTERNAL_LINK, PREDICATE_LINKS_TO,
            PREDICATE_HAS_IMAGE])]
  simp

/-- C9: the feed projection is one has_title command (carrying feed_type
in the attributes) exactly when the feed title is non-empty, followed by
one feed_contains command per item with a non-empty link, in item order,
with the item's non-empty title/published/author carried as attributes;
items without a link contribute nothing. -/
theorem feed_projection_order (actor : String) (r : FeedResult) :
    feed_attest_cmds actor r =
      (if r.title ≠ "" then
        [⟨[r.url], [PREDICATE_HAS_TITLE], [r.title], actorList actor,
          [sourceAttr, ("feed_type", r.feed_type)]⟩]
       else []) ++
      (r.items.filter (fun item => item.link ≠ "")).map
        (mkFeedItemCmd r.url actor) := by
  unfold feed_attest_cmds
  exact feed_fold_eq r.url actor r.items _

/-- C10: every ScrapeResult of WebScraper.scrape carries status_code 0 or
200, and the error field is set exactly when status_code is 0 — the real
HTTP status of a successful fetch is never recorded. -/
theorem scrape_status_code_invariant (env : Env) (cfg : Config) (url : String)
    (ea : Bool) :
    ((scrape env cfg url ea).1.status_code = 0 ∨
      (scrape env cfg url ea).1.status_code = 200) ∧
    ((scrape env cfg url ea).1.error ≠ none ↔
      (scrape env cfg url ea).1.status_code = 0) := by
  unfold scrape
  dsimp only
  repeat' split
  all_goals simp

end QWS
